import Mathlib

/-!
Shallow embedding of the SoroScan Python SDK
(`src/sdk/python/soroscan/{client,models,exceptions}.py`).

Modelling conventions:
* JSON wire values are `JsonVal`; a parsed JSON object body is a `Dict`
  (association list from string keys to `JsonVal`).
* An `httpx.Response` is modelled by `HttpResponse`: its status code, the
  result of `response.json()` (`some v` when the body parses as a JSON
  value, `none` when `.json()` would raise), and the raw `response.text`.
* Raising a taxonomy exception is modelled by returning
  `HandleResult.apiError`; the `kind` field records which exception class
  (`SoroScanValidationError`, `SoroScanAuthError`, ...) was raised.
* Python truthiness (`if search:`, `x or y`) is modelled explicitly by
  `JsonVal.truthy`, `optStrTruthy` and `pyOr`.
* `datetime` fields are carried as their raw ISO-8601 wire strings;
  timestamp-format validation is abstracted (no claim depends on it).
* Pydantic lax-mode coercions of non-canonical forms (e.g. the numeric
  string "3" for an int field) are outside the model; decoders accept the
  canonical JSON form of each declared field type.
-/

set_option autoImplicit false

namespace SoroScan

/-- A JSON value, as produced by `response.json()`. -/
inductive JsonVal where
  | null
  | bool (b : Bool)
  | num (n : Int)
  | str (s : String)
  | arr (xs : List JsonVal)
  | obj (fs : List (String × JsonVal))

/-- A parsed JSON object body: `dict[str, Any]` in the Python source. -/
abbrev Dict := List (String × JsonVal)

/-- `d.get(k)` returning `some v` when the key is present. -/
def dictGet? (d : Dict) (k : String) : Option JsonVal :=
  (d.find? (fun p => p.1 == k)).map (fun p => p.2)

/-- Python `d.get(k)`: the value when present, else Python `None`. -/
def pyDictGet (d : Dict) (k : String) : JsonVal :=
  (dictGet? d k).getD .null

/-- Python truthiness of a JSON value (`None`, `""`, `0`, `False`, `{}`,
`[]` are falsy). -/
def JsonVal.truthy : JsonVal → Bool
  | .null => false
  | .bool b => b
  | .num n => n != 0
  | .str s => !s.isEmpty
  | .arr xs => !xs.isEmpty
  | .obj fs => !fs.isEmpty

/-- Python `a or b` on JSON values. -/
def pyOr (a b : JsonVal) : JsonVal :=
  if a.truthy then a else b

/-- Python truthiness of a `str | None` argument: `None` and `""` are
falsy. -/
def optStrTruthy : Option String → Bool
  | none => false
  | some s => !s.isEmpty

/-- An `httpx.Response` as seen by the decoder: status code, result of
`response.json()` (`some v` = the body parsed to the JSON value `v`,
`none` = `.json()` raises), raw `response.text`. -/
structure HttpResponse where
  status_code : Nat
  jsonBody : Option JsonVal
  text : String

/-- Which exception class of `exceptions.py` was raised. -/
inductive ErrorKind where
  | validation
  | auth
  | notFound
  | rateLimit
  | api
  deriving DecidableEq

/-- A raised `SoroScanAPIError` (or subclass, per `kind`): message,
status code and the server payload stored by `__init__`. -/
structure SoroScanAPIError where
  kind : ErrorKind
  message : JsonVal
  status_code : Nat
  response_data : Dict

/-- `SoroScanAPIError.__init__`: stores `response_data or {}` — Python
truthiness on a dict means an absent/`None`/empty argument all store the
empty dict. -/
def SoroScanAPIError.init (kind : ErrorKind) (message : JsonVal)
    (status_code : Nat) (response_data : Option Dict) : SoroScanAPIError :=
  { kind := kind
    message := message
    status_code := status_code
    response_data :=
      match response_data with
      | none => []
      | some d => if d.isEmpty then [] else d }

/-- Outcome of `_handle_response`: a returned parsed body, a raised
taxonomy error, a raised JSON-decode exception on a success status
(`jsonFailure`), or a raised `AttributeError` when `error_data.get` runs
on a parsed non-object body (`attrFailure`). -/
inductive HandleResult where
  | success (body : JsonVal)
  | jsonFailure
  | attrFailure
  | apiError (e : SoroScanAPIError)

/-- The `error_data` value in scope after the `try/except` of client.py
lines 81-84, as far as the following `.get` calls are concerned: `some`
of the parsed object; `some []` when `.json()` raised and the `except`
branch assigned `{}`; `none` when the body parsed to a NON-OBJECT JSON
value, in which case `error_data.get("detail")` raises an uncaught
`AttributeError`. -/
def errData? : Option JsonVal → Option Dict
  | none => some []
  | some (.obj fs) => some fs
  | some _ => none

/-- `SoroScanClient._handle_response` (client.py lines 73-97). -/
def SoroScanClient.handle_response (response : HttpResponse) : HandleResult :=
  if response.status_code == 200 || response.status_code == 201 then
    match response.jsonBody with
    | some j => .success j
    | none => .jsonFailure
  else if response.status_code == 202 then
    match response.jsonBody with
    | some j => .success j
    | none => .jsonFailure
  else
    match errData? response.jsonBody with
    | none => .attrFailure
    | some error_data =>
      let error_message :=
        pyOr (pyOr (pyDictGet error_data "detail") (pyDictGet error_data "error"))
          (.str response.text)
      if response.status_code == 400 then
        .apiError (.init .validation error_message response.status_code (some error_data))
      else if response.status_code == 401 || response.status_code == 403 then
        .apiError (.init .auth error_message response.status_code (some error_data))
      else if response.status_code == 404 then
        .apiError (.init .notFound error_message response.status_code (some error_data))
      else if response.status_code == 429 then
        .apiError (.init .rateLimit error_message response.status_code (some error_data))
      else
        .apiError (.init .api error_message response.status_code (some error_data))

/-- `AsyncSoroScanClient._handle_response` (client.py lines 502-525),
transcribed from the async class body. -/
def AsyncSoroScanClient.handle_response (response : HttpResponse) : HandleResult :=
  if response.status_code == 200 || response.status_code == 201 then
    match response.jsonBody with
    | some j => .success j
    | none => .jsonFailure
  else if response.status_code == 202 then
    match response.jsonBody with
    | some j => .success j
    | none => .jsonFailure
  else
    match errData? response.jsonBody with
    | none => .attrFailure
    | some error_data =>
      let error_message :=
        pyOr (pyOr (pyDictGet error_data "detail") (pyDictGet error_data "error"))
          (.str response.text)
      if response.status_code == 400 then
        .apiError (.init .validation error_message response.status_code (some error_data))
      else if response.status_code == 401 || response.status_code == 403 then
        .apiError (.init .auth error_message response.status_code (some error_data))
      else if response.status_code == 404 then
        .apiError (.init .notFound error_message response.status_code (some error_data))
      else if response.status_code == 429 then
        .apiError (.init .rateLimit error_message response.status_code (some error_data))
      else
        .apiError (.init .api error_message response.status_code (some error_data))

/-- Outcome of a delete-style operation: `None` returned, a raised
taxonomy error, or a propagated non-taxonomy exception. -/
inductive DeleteResult where
  | success
  | jsonFailure
  | attrFailure
  | apiError (e : SoroScanAPIError)

/-- Response handling of `SoroScanClient.delete_contract` (client.py lines
217-220): a 204 returns immediately, otherwise `_handle_response` runs and
its return value is discarded. -/
def SoroScanClient.delete_contract_handle (response : HttpResponse) : DeleteResult :=
  if response.status_code == 204 then .success
  else
    match SoroScanClient.handle_response response with
    | .success _ => .success
    | .jsonFailure => .jsonFailure
    | .attrFailure => .attrFailure
    | .apiError e => .apiError e

/-- Response handling of `SoroScanClient.delete_webhook` (client.py lines
437-440). -/
def SoroScanClient.delete_webhook_handle (response : HttpResponse) : DeleteResult :=
  if response.status_code == 204 then .success
  else
    match SoroScanClient.handle_response response with
    | .success _ => .success
    | .jsonFailure => .jsonFailure
    | .attrFailure => .attrFailure
    | .apiError e => .apiError e

/-- `SoroScanClient._get_headers` (client.py lines 66-71): the client's
`api_key` is `str | None`; the `Authorization` header is added under
Python truthiness of `self.api_key`. -/
def SoroScanClient.get_headers (api_key : Option String) : List (String × String) :=
  let headers := [("Content-Type", "application/json")]
  if optStrTruthy api_key then
    headers ++ [("Authorization", "Bearer " ++ api_key.getD "")]
  else headers

/-- `AsyncSoroScanClient._get_headers` (client.py lines 495-500),
transcribed from the async class body. -/
def AsyncSoroScanClient.get_headers (api_key : Option String) : List (String × String) :=
  let headers := [("Content-Type", "application/json")]
  if optStrTruthy api_key then
    headers ++ [("Authorization", "Bearer " ++ api_key.getD "")]
  else headers

/-- Does a header list carry the given header name? -/
def hasHeader (hs : List (String × String)) (k : String) : Bool :=
  hs.any (fun p => p.1 == k)

/-- A query-parameter value as placed into the `params` dict. -/
inductive ParamVal where
  | str (s : String)
  | int (n : Int)
  | bool (b : Bool)

/-- Does a params dict carry the given key? -/
def hasKey (ps : List (String × ParamVal)) (k : String) : Bool :=
  ps.any (fun p => p.1 == k)

/-- One optional query entry added under an `is not None` test
(Python `if x is not None: params[k] = x`): the entry appears exactly
when the argument is present. -/
def presentSeg {α : Type} (o : Option α) (k : String) (f : α → ParamVal) :
    List (String × ParamVal) :=
  match o with
  | some v => [(k, f v)]
  | none => []

/-- One optional query entry added under Python truthiness of a
`str | None` argument (Python `if x: params[k] = x`): the entry appears
exactly when the argument is a non-empty string. -/
def truthySeg (o : Option String) (k : String) : List (String × ParamVal) :=
  match o with
  | some s => if s.isEmpty then [] else [(k, .str s)]
  | none => []

/-- Query-parameter construction of `SoroScanClient.get_contracts`
(client.py lines 118-122): the base `page`/`page_size` entries, then
`is_active` added under an `is not None` test, then `search` added under
Python truthiness — each conditional `params[k] = v` of the source is one
appended segment, in source order. -/
def SoroScanClient.get_contracts_params (is_active : Option Bool)
    (search : Option String) (page : Int) (page_size : Int) :
    List (String × ParamVal) :=
  [("page", .int page), ("page_size", .int page_size)]
    ++ presentSeg is_active "is_active" ParamVal.bool
    ++ truthySeg search "search"

/-- Query-parameter construction of `SoroScanClient.get_events`
(client.py lines 266-282): the base `page`/`page_size`/`ordering`
entries, then `contract_id`, `event_type` and `validation_status` added
under Python truthiness and the three ledger filters under `is not None`
tests — each conditional `params[k] = v` of the source is one appended
segment, in source order. -/
def SoroScanClient.get_events_params (contract_id : Option String)
    (event_type : Option String) (ledger : Option Int)
    (ledger_min : Option Int) (ledger_max : Option Int)
    (validation_status : Option String) (ordering : String)
    (page : Int) (page_size : Int) : List (String × ParamVal) :=
  [("page", .int page), ("page_size", .int page_size), ("ordering", .str ordering)]
    ++ truthySeg contract_id "contract__contract_id"
    ++ truthySeg event_type "event_type"
    ++ presentSeg ledger "ledger" ParamVal.int
    ++ presentSeg ledger_min "ledger__gte" ParamVal.int
    ++ presentSeg ledger_max "ledger__lte" ParamVal.int
    ++ truthySeg validation_status "validation_status"

/-- `RecordEventRequest` (models.py lines 77-82): three string fields with
pydantic `max_length` ceilings 56 / 100 / 64. -/
structure RecordEventRequest where
  contract_id : String
  event_type : String
  payload_hash : String

/-- Pydantic validation performed when `RecordEventRequest(...)` is
constructed: every field must respect its `max_length` ceiling, else a
validation exception is raised (`none`). -/
def RecordEventRequest.validate (contract_id : String) (event_type : String)
    (payload_hash : String) : Option RecordEventRequest :=
  if contract_id.length ≤ 56 ∧ event_type.length ≤ 100 ∧ payload_hash.length ≤ 64 then
    some ⟨contract_id, event_type, payload_hash⟩
  else none

/-- Outcome of the pre-transport phase of `record_event`. -/
inductive RecordEventStep where
  | validationFailure
  | transmit (req : RecordEventRequest)

/-- `SoroScanClient.record_event` up to the transport call (client.py
lines 323-329): the `RecordEventRequest` is constructed — and therefore
validated — before `self._client.post` runs; a validation failure
propagates and nothing is transmitted. -/
def SoroScanClient.record_event_build (contract_id : String)
    (event_type : String) (payload_hash : String) : RecordEventStep :=
  match RecordEventRequest.validate contract_id event_type payload_hash with
  | none => .validationFailure
  | some req => .transmit req

/-- Decode a required `str` field. -/
def decodeStr : Option JsonVal → Option String
  | some (.str s) => some s
  | _ => none

/-- Decode a `str` field with a pydantic default: absent takes the
default, present must be a string (explicit `null` is rejected). -/
def decodeStrD (dflt : String) : Option JsonVal → Option String
  | none => some dflt
  | some (.str s) => some s
  | some _ => none

/-- Decode a required `int` field. -/
def decodeInt : Option JsonVal → Option Int
  | some (.num n) => some n
  | _ => none

/-- Decode an `int` field with a pydantic default. -/
def decodeIntD (dflt : Int) : Option JsonVal → Option Int
  | none => some dflt
  | some (.num n) => some n
  | some _ => none

/-- Decode a `bool` field with a pydantic default. -/
def decodeBoolD (dflt : Bool) : Option JsonVal → Option Bool
  | none => some dflt
  | some (.bool b) => some b
  | some _ => none

/-- Decode a required `dict[str, Any]` field. -/
def decodeDict : Option JsonVal → Option Dict
  | some (.obj fs) => some fs
  | _ => none

/-- Decode an `int | None` field defaulting to `None`: absent and
explicit `null` both give `none`. -/
def decodeOptInt : Option JsonVal → Option (Option Int)
  | none => some none
  | some .null => some none
  | some (.num n) => some (some n)
  | some _ => none

/-- Decode a `dict | None` field defaulting to `None`. -/
def decodeOptDict : Option JsonVal → Option (Option Dict)
  | none => some none
  | some .null => some none
  | some (.obj fs) => some (some fs)
  | some _ => none

/-- Decode a required `datetime` field (carried as its ISO-8601 wire
string; format validation abstracted). -/
def decodeDatetime : Option JsonVal → Option String
  | some (.str s) => some s
  | _ => none

/-- Decode a `datetime | None` field defaulting to `None`. -/
def decodeOptDatetime : Option JsonVal → Option (Option String)
  | none => some none
  | some .null => some none
  | some (.str s) => some (some s)
  | some _ => none

/-- `TrackedContract` (models.py lines 11-23). Timestamps carried as wire
strings. -/
structure TrackedContract where
  id : Int
  contract_id : String
  name : String
  description : String
  abi_schema : Option Dict
  is_active : Bool
  last_indexed_ledger : Option Int
  event_count : Int
  created_at : String
  updated_at : String

/-- `TrackedContract.model_validate`: pydantic decode of the model from a
JSON object, applying the declared field defaults. -/
def TrackedContract.model_validate (d : Dict) : Option TrackedContract := do
  let i ← decodeInt (dictGet? d "id")
  let cid ← decodeStr (dictGet? d "contract_id")
  let nm ← decodeStr (dictGet? d "name")
  let desc ← decodeStrD "" (dictGet? d "description")
  let ab ← decodeOptDict (dictGet? d "abi_schema")
  let ia ← decodeBoolD true (dictGet? d "is_active")
  let lil ← decodeOptInt (dictGet? d "last_indexed_ledger")
  let ec ← decodeIntD 0 (dictGet? d "event_count")
  let ca ← decodeDatetime (dictGet? d "created_at")
  let ua ← decodeDatetime (dictGet? d "updated_at")
  some ⟨i, cid, nm, desc, ab, ia, lil, ec, ca, ua⟩

/-- `ContractEvent` (models.py lines 26-41). Note `validation_status` is a
plain `str` field with default "passed". -/
structure ContractEvent where
  id : Int
  contract_id : String
  contract_name : String
  event_type : String
  payload : Dict
  payload_hash : String
  ledger : Int
  event_index : Int
  timestamp : String
  tx_hash : String
  schema_version : Option Int
  validation_status : String

/-- `ContractEvent.model_validate`: pydantic decode of the model. -/
def ContractEvent.model_validate (d : Dict) : Option ContractEvent := do
  let i ← decodeInt (dictGet? d "id")
  let cid ← decodeStr (dictGet? d "contract_id")
  let cn ← decodeStr (dictGet? d "contract_name")
  let et ← decodeStr (dictGet? d "event_type")
  let pl ← decodeDict (dictGet? d "payload")
  let ph ← decodeStr (dictGet? d "payload_hash")
  let lg ← decodeInt (dictGet? d "ledger")
  let ei ← decodeIntD 0 (dictGet? d "event_index")
  let ts ← decodeDatetime (dictGet? d "timestamp")
  let tx ← decodeStr (dictGet? d "tx_hash")
  let sv ← decodeOptInt (dictGet? d "schema_version")
  let vs ← decodeStrD "passed" (dictGet? d "validation_status")
  some ⟨i, cid, cn, et, pl, ph, lg, ei, ts, tx, sv, vs⟩

/-- `WebhookSubscription` (models.py lines 43-54). -/
structure WebhookSubscription where
  id : Int
  contract : Int
  contract_id : String
  event_type : String
  target_url : String
  is_active : Bool
  created_at : String
  last_triggered : Option String
  failure_count : Int

/-- `WebhookSubscription.model_validate`: pydantic decode of the model. -/
def WebhookSubscription.model_validate (d : Dict) : Option WebhookSubscription := do
  let i ← decodeInt (dictGet? d "id")
  let c ← decodeInt (dictGet? d "contract")
  let cid ← decodeStr (dictGet? d "contract_id")
  let et ← decodeStrD "" (dictGet? d "event_type")
  let tu ← decodeStr (dictGet? d "target_url")
  let ia ← decodeBoolD true (dictGet? d "is_active")
  let ca ← decodeDatetime (dictGet? d "created_at")
  let lt ← decodeOptDatetime (dictGet? d "last_triggered")
  let fc ← decodeIntD 0 (dictGet? d "failure_count")
  some ⟨i, c, cid, et, tu, ia, ca, lt, fc⟩

/-! ## Projections and spec-side tables used by the theorems -/

/-- The taxonomy error raised by a decode outcome, when one was raised. -/
def raisedError? : HandleResult → Option SoroScanAPIError
  | .apiError e => some e
  | _ => none

/-- Kind of the raised taxonomy error, when one was raised. -/
def raisedKind? (h : HandleResult) : Option ErrorKind :=
  (raisedError? h).map (fun e => e.kind)

/-- `status_code` field of the raised taxonomy error, when one was raised. -/
def raisedStatus? (h : HandleResult) : Option Nat :=
  (raisedError? h).map (fun e => e.status_code)

/-- `message` of the raised taxonomy error, when one was raised. -/
def raisedMessage? (h : HandleResult) : Option JsonVal :=
  (raisedError? h).map (fun e => e.message)

/-- `response_data` of the raised taxonomy error, when one was raised. -/
def raisedData? (h : HandleResult) : Option Dict :=
  (raisedError? h).map (fun e => e.response_data)

/-- The status-to-kind table of spec section 4.2: 400 maps to
`ValidationError`, 401 and 403 to `AuthError`, 404 to `NotFoundError`,
429 to `RateLimitError`, any other non-success status to `APIError`. -/
def statusKind (s : Nat) : ErrorKind :=
  if s == 400 then .validation
  else if s == 401 || s == 403 then .auth
  else if s == 404 then .notFound
  else if s == 429 then .rateLimit
  else .api

/-- The message computed on the error path of `_handle_response` from
the `error_data` dict and the raw response text. -/
def errorMessage (ed : Dict) (text : String) : JsonVal :=
  pyOr (pyOr (pyDictGet ed "detail") (pyDictGet ed "error")) (.str text)

/-- The message-extraction rule as the spec words it (amended to Python
truthiness): the `detail` value when present and truthy, else the `error`
value when present and truthy, else the raw response text. -/
def messageRule (ed : Dict) (text : String) : JsonVal :=
  if (pyDictGet ed "detail").truthy then pyDictGet ed "detail"
  else if (pyDictGet ed "error").truthy then pyDictGet ed "error"
  else .str text

/-! ## General lemmas about the decoder -/

/-- On any non-success status whose body is a JSON object or is
unparseable, `_handle_response` raises the error built from the
status-kind table, the extracted message, the input status and the
parsed-or-empty error body. -/
theorem handle_response_error_eq (r : HttpResponse) (ed : Dict)
    (hb : errData? r.jsonBody = some ed)
    (h0 : r.status_code ≠ 200) (h1 : r.status_code ≠ 201) (h2 : r.status_code ≠ 202) :
    SoroScanClient.handle_response r =
      .apiError (.init (statusKind r.status_code) (errorMessage ed r.text)
        r.status_code (some ed)) := by
  have b0 : (r.status_code == 200) = false := by simp [h0]
  have b1 : (r.status_code == 201) = false := by simp [h1]
  have b2 : (r.status_code == 202) = false := by simp [h2]
  unfold SoroScanClient.handle_response statusKind errorMessage
  rw [hb]
  simp only [b0, b1, b2, Bool.or_self, Bool.false_or, Bool.or_false, if_false,
    Bool.false_eq_true, ite_false]
  split
  all_goals try rfl
  split
  all_goals try rfl
  split
  all_goals try rfl
  split <;> rfl

/-- The code's `or`-chained message equals the spec-worded conditional
rule. -/
theorem errorMessage_eq_messageRule (ed : Dict) (text : String) :
    errorMessage ed text = messageRule ed text := by
  unfold errorMessage messageRule pyOr
  by_cases hd : (pyDictGet ed "detail").truthy <;>
    by_cases he : (pyDictGet ed "error").truthy <;>
    simp [hd, he]

/-- Key membership distributes over appended parameter segments. -/
theorem hasKey_append (ps qs : List (String × ParamVal)) (k : String) :
    hasKey (ps ++ qs) k = (hasKey ps k || hasKey qs k) := by
  simp [hasKey]

/-- Key membership on a cons cell. -/
theorem hasKey_cons (a : String × ParamVal) (l : List (String × ParamVal))
    (k : String) : hasKey (a :: l) k = ((a.1 == k) || hasKey l k) := by
  simp [hasKey]

/-- The empty parameter list has no keys. -/
theorem hasKey_nil (k : String) : hasKey [] k = false := rfl

/-- A `presentSeg` carries its own key exactly when the argument is
present. -/
theorem hasKey_presentSeg_self {α : Type} (o : Option α) (k : String)
    (f : α → ParamVal) : hasKey (presentSeg o k f) k = o.isSome := by
  cases o <;> simp [presentSeg, hasKey]

/-- A `presentSeg` never carries a different key. -/
theorem hasKey_presentSeg_ne {α : Type} (o : Option α) (k k' : String)
    (f : α → ParamVal) (h : (k == k') = false) :
    hasKey (presentSeg o k f) k' = false := by
  cases o <;> simp_all [presentSeg, hasKey]

/-- A `truthySeg` carries its own key exactly when the argument is a
present non-empty string. -/
theorem hasKey_truthySeg_self (o : Option String) (k : String) :
    hasKey (truthySeg o k) k = optStrTruthy o := by
  rcases o with _ | s
  · simp [truthySeg, optStrTruthy, hasKey]
  · cases hs : s.isEmpty <;> simp [truthySeg, optStrTruthy, hasKey, hs]

/-- A `truthySeg` never carries a different key. -/
theorem hasKey_truthySeg_ne (o : Option String) (k k' : String)
    (h : (k == k') = false) : hasKey (truthySeg o k) k' = false := by
  rcases o with _ | s
  · simp [truthySeg, hasKey]
  · cases hs : s.isEmpty <;> simp_all [truthySeg, hasKey, hs]

/-! ## Claim theorems -/

/-- A 400-status response whose body parses to a JSON array. -/
def exC1bad : HttpResponse := ⟨400, some (.arr [.num 1]), "[1]"⟩

/-- C1 counterexample: on a 400-status response whose body parses to a
JSON array, `_handle_response` raises no taxonomy error at all — the
uncaught `AttributeError` from `error_data.get("detail")` on a non-dict
propagates instead of the claimed `ValidationError`. -/
theorem c1_counterexample :
    exC1bad.status_code = 400 ∧
    SoroScanClient.handle_response exC1bad = .attrFailure ∧
    raisedKind? (SoroScanClient.handle_response exC1bad) = none :=
  ⟨rfl, rfl, rfl⟩

/-- C1 (amended): for every response with status code in {400, 401, 403,
404, 429, 500} whose body parses to a JSON object or is unparseable,
`_handle_response` raises exactly the taxonomy kind given by the
status-to-kind table (400 ValidationError, 401/403 AuthError, 404
NotFoundError, 429 RateLimitError, other non-success APIError), and the
raised error's `status_code` field equals the input status code; a body
parsing to a non-object JSON value instead escapes classification with an
uncaught `AttributeError`. -/
theorem c1_status_to_kind_table (r : HttpResponse) (ed : Dict)
    (hb : errData? r.jsonBody = some ed)
    (h : r.status_code ∈ ([400, 401, 403, 404, 429, 500] : List Nat)) :
    raisedKind? (SoroScanClient.handle_response r) = some (statusKind r.status_code) ∧
    raisedStatus? (SoroScanClient.handle_response r) = some r.status_code := by
  have hne : r.status_code ≠ 200 ∧ r.status_code ≠ 201 ∧ r.status_code ≠ 202 := by
    simp only [List.mem_cons, List.not_mem_nil, or_false] at h
    rcases h with h | h | h | h | h | h <;> simp [h]
  rw [handle_response_error_eq r ed hb hne.1 hne.2.1 hne.2.2]
  exact ⟨rfl, rfl⟩

/-- Concrete 404 response with a JSON-object error body. -/
def exC1 : HttpResponse :=
  ⟨404, some (.obj [("detail", .str "Not found")]), "detail Not found"⟩

/-- Witness for C1 at a concrete 404 response. -/
theorem c1_status_to_kind_table_witness :
    raisedKind? (SoroScanClient.handle_response exC1) = some (statusKind 404) ∧
    raisedStatus? (SoroScanClient.handle_response exC1) = some 404 :=
  c1_status_to_kind_table exC1 [("detail", .str "Not found")] rfl (by decide)

/-- Non-success response whose `detail` field is present but empty and
whose `error` field carries the message the code actually uses. -/
def exC3 : HttpResponse :=
  ⟨500, some (.obj [("detail", .str ""), ("error", .str "boom")]), "raw text"⟩

/-- A 404-status response whose body parses to a JSON array. -/
def exC3bad : HttpResponse := ⟨404, some (.arr []), "[]"⟩

/-- C3 counterexample, two concrete inputs: (a) on `exC3` the body's
`detail` key is present (with value `""`), yet the raised error's message
is the `error` field's value "boom", not the `detail` value — the code
chains Python `or`, so a present-but-falsy `detail` is skipped; (b) on a
404 whose body parses to a JSON array (neither key present), no error is
raised at all: `error_data.get` raises an uncaught `AttributeError`
instead of `NotFoundError` with the raw-text message. -/
theorem c3_counterexample :
    dictGet? [("detail", JsonVal.str ""), ("error", JsonVal.str "boom")] "detail" =
      some (.str "") ∧
    raisedMessage? (SoroScanClient.handle_response exC3) = some (.str "boom") ∧
    ("boom" : String) ≠ "" ∧
    SoroScanClient.handle_response exC3bad = .attrFailure :=
  ⟨rfl, rfl, by decide, rfl⟩

/-- C3 (amended): for every non-success response whose body parses to a
JSON object or is unparseable, the raised error's message is the body's
`detail` value when present and truthy (non-empty), else the `error`
value when present and truthy, else the raw response text; and when the
body is not parseable as JSON the decoder still raises the HTTP-status
error, with `response_data` empty and message equal to the raw text — in
particular a 404 with an invalid-JSON body raises `NotFoundError`. (A
body parsing to non-object JSON instead escapes with an uncaught
`AttributeError`.) -/
theorem c3_message_extraction (r : HttpResponse) (ed : Dict)
    (hb : errData? r.jsonBody = some ed)
    (h0 : r.status_code ≠ 200) (h1 : r.status_code ≠ 201) (h2 : r.status_code ≠ 202) :
    raisedMessage? (SoroScanClient.handle_response r) = some (messageRule ed r.text) ∧
    (r.jsonBody = none →
      raisedData? (SoroScanClient.handle_response r) = some [] ∧
      raisedMessage? (SoroScanClient.handle_response r) = some (.str r.text)) ∧
    (r.status_code = 404 →
      raisedKind? (SoroScanClient.handle_response r) = some .notFound) := by
  rw [handle_response_error_eq r ed hb h0 h1 h2]
  have hed : r.jsonBody = none → ed = [] := by
    intro h; rw [h] at hb
    simpa [errData?] using hb.symm
  refine ⟨?_, ?_, ?_⟩
  · simp [raisedMessage?, raisedError?, SoroScanAPIError.init,
      errorMessage_eq_messageRule]
  · intro h
    rw [hed h]
    constructor
    · simp [raisedData?, raisedError?, SoroScanAPIError.init]
    · simp [raisedMessage?, raisedError?, SoroScanAPIError.init,
        errorMessage, pyDictGet, dictGet?, pyOr, JsonVal.truthy]
  · intro hs
    simp [raisedKind?, raisedError?, SoroScanAPIError.init, statusKind, hs]

/-- Concrete 404 response whose body fails to parse as JSON. -/
def exC3w : HttpResponse := ⟨404, none, "<html>not json</html>"⟩

/-- Witness for C3 at a concrete 404 response with an invalid-JSON body. -/
theorem c3_message_extraction_witness :
    raisedMessage? (SoroScanClient.handle_response exC3w) =
      some (.str "<html>not json</html>") ∧
    raisedData? (SoroScanClient.handle_response exC3w) = some [] ∧
    raisedKind? (SoroScanClient.handle_response exC3w) = some .notFound := by
  have h := c3_message_extraction exC3w [] rfl (by decide) (by decide) (by decide)
  exact ⟨(h.2.1 rfl).2, (h.2.1 rfl).1, h.2.2 rfl⟩

/-- A 500-status response whose body parses to a JSON array. -/
def exC4bad : HttpResponse := ⟨500, some (.arr []), "[]"⟩

/-- C4 counterexample: on a 500-status response whose body parses to a
JSON array, `_handle_response` raises no taxonomy error — an uncaught
`AttributeError` escapes instead — contradicting the claim that any
non-{200,201,202} status raises a taxonomy error. -/
theorem c4_counterexample :
    exC4bad.status_code = 500 ∧
    SoroScanClient.handle_response exC4bad = .attrFailure ∧
    (raisedError? (SoroScanClient.handle_response exC4bad)).isSome = false :=
  ⟨rfl, rfl, rfl⟩

/-- C4 (amended): `_handle_response` treats exactly 200, 201 and 202 as
success, returning the parsed body without raising; any other status
raises a taxonomy error PROVIDED the body parses to a JSON object or is
unparseable (a non-object JSON body escapes with an uncaught
`AttributeError`); and on `delete_contract` / `delete_webhook` a 204
status is success with no decoded value and no error raised. -/
theorem c4_success_statuses (r : HttpResponse) (j : JsonVal) (ed : Dict) :
    ((r.status_code = 200 ∨ r.status_code = 201 ∨ r.status_code = 202) →
      r.jsonBody = some j → SoroScanClient.handle_response r = .success j) ∧
    (r.status_code ≠ 200 → r.status_code ≠ 201 → r.status_code ≠ 202 →
      errData? r.jsonBody = some ed →
      (raisedError? (SoroScanClient.handle_response r)).isSome = true) ∧
    (r.status_code = 204 →
      SoroScanClient.delete_contract_handle r = .success ∧
      SoroScanClient.delete_webhook_handle r = .success) := by
  refine ⟨?_, ?_, ?_⟩
  · intro hs hb
    rcases hs with h | h | h <;>
      simp [SoroScanClient.handle_response, h, hb]
  · intro h0 h1 h2 hb
    rw [handle_response_error_eq r ed hb h0 h1 h2]
    rfl
  · intro hs
    constructor <;>
      simp [SoroScanClient.delete_contract_handle,
        SoroScanClient.delete_webhook_handle, hs]

/-- Concrete 200 response with a parsed body. -/
def exC4ok : HttpResponse :=
  ⟨200, some (.obj [("count", .num 0)]), "count 0"⟩

/-- Concrete 503 response. -/
def exC4err : HttpResponse := ⟨503, none, "service unavailable"⟩

/-- Concrete 204 response with an empty body. -/
def exC4del : HttpResponse := ⟨204, none, ""⟩

/-- Witness for C4 at concrete 200, 503 and 204 responses. -/
theorem c4_success_statuses_witness :
    SoroScanClient.handle_response exC4ok = .success (.obj [("count", .num 0)]) ∧
    (raisedError? (SoroScanClient.handle_response exC4err)).isSome = true ∧
    SoroScanClient.delete_contract_handle exC4del = .success ∧
    SoroScanClient.delete_webhook_handle exC4del = .success :=
  ⟨(c4_success_statuses exC4ok (.obj [("count", .num 0)]) []).1 (Or.inl rfl) rfl,
   (c4_success_statuses exC4err (.obj []) []).2.1 (by decide) (by decide) (by decide) rfl,
   ((c4_success_statuses exC4del (.obj []) []).2.2 rfl).1,
   ((c4_success_statuses exC4del (.obj []) []).2.2 rfl).2⟩

/-- C2 counterexample: `get_events` called with the present-but-empty
filter `event_type = some ""` emits no `event_type` query key — the code
tests Python truthiness (`if event_type:`), not presence, contradicting
the claim that a present empty-string filter still appears. -/
theorem c2_counterexample :
    (some "" : Option String).isSome = true ∧
    hasKey (SoroScanClient.get_events_params none (some "") none none none none
      "-timestamp" 1 50) "event_type" = false :=
  ⟨rfl, rfl⟩

/-- C2 (amended): an absent (`None`) filter argument never appears as a
key in the emitted query parameters; a present `0`/`false` value on the
`is not None`-tested filters (`is_active`, `ledger`, `ledger_min`,
`ledger_max`) still appears; but the truthiness-tested string filters
(`search`, `contract_id`, `event_type`, `validation_status`) appear iff
present AND non-empty — a present empty string is dropped. Stated as an
exact characterization of key presence for every filter of
`get_contracts` and `get_events`. -/
theorem c2_filter_key_presence :
    (∀ (ia : Option Bool) (srch : Option String) (p ps : Int),
      hasKey (SoroScanClient.get_contracts_params ia srch p ps) "is_active" = ia.isSome ∧
      hasKey (SoroScanClient.get_contracts_params ia srch p ps) "search" = optStrTruthy srch) ∧
    (∀ (cid et : Option String) (l lmin lmax : Option Int) (vs : Option String)
        (ord : String) (p ps : Int),
      hasKey (SoroScanClient.get_events_params cid et l lmin lmax vs ord p ps)
          "contract__contract_id" = optStrTruthy cid ∧
      hasKey (SoroScanClient.get_events_params cid et l lmin lmax vs ord p ps)
          "event_type" = optStrTruthy et ∧
      hasKey (SoroScanClient.get_events_params cid et l lmin lmax vs ord p ps)
          "ledger" = l.isSome ∧
      hasKey (SoroScanClient.get_events_params cid et l lmin lmax vs ord p ps)
          "ledger__gte" = lmin.isSome ∧
      hasKey (SoroScanClient.get_events_params cid et l lmin lmax vs ord p ps)
          "ledger__lte" = lmax.isSome ∧
      hasKey (SoroScanClient.get_events_params cid et l lmin lmax vs ord p ps)
          "validation_status" = optStrTruthy vs) := by
  constructor
  · intro ia srch p ps
    constructor <;>
      simp [SoroScanClient.get_contracts_params, hasKey_append, hasKey_cons,
        hasKey_nil, hasKey_presentSeg_self, hasKey_presentSeg_ne,
        hasKey_truthySeg_self, hasKey_truthySeg_ne]
  · intro cid et l lmin lmax vs ord p ps
    refine ⟨?_, ?_, ?_, ?_, ?_, ?_⟩ <;>
      simp [SoroScanClient.get_events_params, hasKey_append, hasKey_cons,
        hasKey_nil, hasKey_presentSeg_self, hasKey_presentSeg_ne,
        hasKey_truthySeg_self, hasKey_truthySeg_ne]

/-- C6: `record_event` checks the outbound request fields against their
length ceilings (contract address at most 56 characters, event type at
most 100, payload hash at most 64) before any transport call: if any
argument exceeds its ceiling the operation fails without transmitting,
and if all are within the ceilings the request is accepted for
transmission. -/
theorem c6_record_event_ceilings (cid et ph : String) :
    (cid.length ≤ 56 ∧ et.length ≤ 100 ∧ ph.length ≤ 64 →
      SoroScanClient.record_event_build cid et ph = .transmit ⟨cid, et, ph⟩) ∧
    (¬(cid.length ≤ 56 ∧ et.length ≤ 100 ∧ ph.length ≤ 64) →
      SoroScanClient.record_event_build cid et ph = .validationFailure) := by
  constructor <;> intro h <;>
    simp [SoroScanClient.record_event_build, RecordEventRequest.validate, h]

/-- A 57-character contract address, exceeding the 56-character ceiling. -/
def exC6long : String := String.mk (List.replicate 57 'a')

/-- Witness for C6: an in-ceiling call is accepted for transmission and a
call with a 57-character address fails validation before transport. -/
theorem c6_record_event_ceilings_witness :
    SoroScanClient.record_event_build "CCAAA" "transfer" "abc123" =
      .transmit ⟨"CCAAA", "transfer", "abc123"⟩ ∧
    SoroScanClient.record_event_build exC6long "transfer" "abc123" =
      .validationFailure :=
  ⟨(c6_record_event_ceilings "CCAAA" "transfer" "abc123").1 (by decide),
   (c6_record_event_ceilings exC6long "transfer" "abc123").2 (by decide)⟩

/-- C7 counterexample: a client configured with the empty-string API key
`some ""` emits no `Authorization` header — the code tests Python
truthiness (`if self.api_key:`), so a configured-but-empty key is
dropped, contradicting "present iff an API key was configured". -/
theorem c7_counterexample :
    (some "" : Option String).isSome = true ∧
    hasHeader (SoroScanClient.get_headers (some "")) "Authorization" = false :=
  ⟨rfl, rfl⟩

/-- C7 (amended): `_get_headers` always includes
`Content-Type: application/json`, and includes an
`Authorization: Bearer <key>` header iff a NON-EMPTY API key was
configured on the client. -/
theorem c7_headers (api_key : Option String) :
    hasHeader (SoroScanClient.get_headers api_key) "Content-Type" = true ∧
    hasHeader (SoroScanClient.get_headers api_key) "Authorization" =
      optStrTruthy api_key ∧
    (∀ s : String, api_key = some s → ¬s.isEmpty →
      (SoroScanClient.get_headers api_key).contains
        ("Authorization", "Bearer " ++ s) = true) := by
  refine ⟨?_, ?_, ?_⟩
  · rcases api_key with _ | s
    · simp [SoroScanClient.get_headers, hasHeader, optStrTruthy]
    · rcases hs : s.isEmpty <;>
        simp [SoroScanClient.get_headers, hasHeader, optStrTruthy, hs]
  · rcases api_key with _ | s
    · simp [SoroScanClient.get_headers, hasHeader, optStrTruthy]
    · rcases hs : s.isEmpty <;>
        simp [SoroScanClient.get_headers, hasHeader, optStrTruthy, hs]
  · intro s hk hs
    subst hk
    simp only [SoroScanClient.get_headers, optStrTruthy, Option.getD_some]
    rw [if_pos (by simpa using hs)]
    simp [List.contains]

/-- Witness for C7 at a concrete non-empty API key. -/
theorem c7_headers_witness :
    hasHeader (SoroScanClient.get_headers (some "sk-123")) "Content-Type" = true ∧
    hasHeader (SoroScanClient.get_headers (some "sk-123")) "Authorization" = true ∧
    (SoroScanClient.get_headers (some "sk-123")).contains
      ("Authorization", "Bearer sk-123") = true := by
  have h := c7_headers (some "sk-123")
  exact ⟨h.1, h.2.1, h.2.2 "sk-123" rfl (by decide)⟩

/-- C5: for every input map accepted by the entity decoders, an absent
optional field is defaulted at decode time as documented: absent
`description` decodes to `""`, absent `is_active` to `true`, absent
`event_count` and `failure_count` to `0`, and an absent `event_type`
filter on a webhook to `""`. -/
theorem c5_decode_defaults (d : Dict) :
    (∀ tc, TrackedContract.model_validate d = some tc →
      (dictGet? d "description" = none → tc.description = "") ∧
      (dictGet? d "is_active" = none → tc.is_active = true) ∧
      (dictGet? d "event_count" = none → tc.event_count = 0)) ∧
    (∀ w, WebhookSubscription.model_validate d = some w →
      (dictGet? d "event_type" = none → w.event_type = "") ∧
      (dictGet? d "is_active" = none → w.is_active = true) ∧
      (dictGet? d "failure_count" = none → w.failure_count = 0)) := by
  constructor
  · intro tc htc
    simp only [TrackedContract.model_validate, Option.bind_eq_some, bind,
      Option.some.injEq] at htc
    obtain ⟨i, hi, cid, hcid, nm, hnm, desc, hdesc, ab, hab, ia, hia, lil, hlil,
      ec, hec, ca, hca, ua, hua, heq⟩ := htc
    subst heq
    refine ⟨?_, ?_, ?_⟩
    · intro h; rw [h] at hdesc
      simpa [decodeStrD] using hdesc.symm
    · intro h; rw [h] at hia
      simpa [decodeBoolD] using hia.symm
    · intro h; rw [h] at hec
      simpa [decodeIntD] using hec.symm
  · intro w hw
    simp only [WebhookSubscription.model_validate, Option.bind_eq_some, bind,
      Option.some.injEq] at hw
    obtain ⟨i, hi, c, hc, cid, hcid, et, het, tu, htu, ia, hia, ca, hca, lt, hlt,
      fc, hfc, heq⟩ := hw
    subst heq
    refine ⟨?_, ?_, ?_⟩
    · intro h; rw [h] at het
      simpa [decodeStrD] using het.symm
    · intro h; rw [h] at hia
      simpa [decodeBoolD] using hia.symm
    · intro h; rw [h] at hfc
      simpa [decodeIntD] using hfc.symm

/-- Contract JSON carrying only the required fields. -/
def exC5c : Dict :=
  [("id", .num 1), ("contract_id", .str "CCAAA"), ("name", .str "Test Token"),
   ("created_at", .str "2026-01-01T00:00:00Z"),
   ("updated_at", .str "2026-01-01T00:00:00Z")]

/-- The contract `exC5c` decodes to, with all defaults applied. -/
def exC5tc : TrackedContract :=
  ⟨1, "CCAAA", "Test Token", "", none, true, none, 0,
   "2026-01-01T00:00:00Z", "2026-01-01T00:00:00Z"⟩

/-- Webhook JSON carrying only the required fields. -/
def exC5w : Dict :=
  [("id", .num 2), ("contract", .num 1), ("contract_id", .str "CCAAA"),
   ("target_url", .str "https://example.com/hook"),
   ("created_at", .str "2026-01-01T00:00:00Z")]

/-- The webhook `exC5w` decodes to, with all defaults applied. -/
def exC5ws : WebhookSubscription :=
  ⟨2, 1, "CCAAA", "", "https://example.com/hook", true,
   "2026-01-01T00:00:00Z", none, 0⟩

/-- Witness for C5 at concrete decode inputs lacking every optional
field. -/
theorem c5_decode_defaults_witness :
    TrackedContract.model_validate exC5c = some exC5tc ∧
    exC5tc.description = "" ∧ exC5tc.is_active = true ∧ exC5tc.event_count = 0 ∧
    WebhookSubscription.model_validate exC5w = some exC5ws ∧
    exC5ws.event_type = "" ∧ exC5ws.failure_count = 0 := by
  have h1 := (c5_decode_defaults exC5c).1 exC5tc rfl
  have h2 := (c5_decode_defaults exC5w).2 exC5ws rfl
  exact ⟨rfl, h1.1 rfl, h1.2.1 rfl, h1.2.2 rfl, rfl, h2.1 rfl, h2.2.2 rfl⟩

/-- Event JSON whose `validation_status` is neither "passed" nor
"failed". -/
def exC8 : Dict :=
  [("id", .num 1), ("contract_id", .str "CCAAA"), ("contract_name", .str "n"),
   ("event_type", .str "transfer"), ("payload", .obj []),
   ("payload_hash", .str "abc123"), ("ledger", .num 100000),
   ("timestamp", .str "2026-01-01T00:00:00Z"), ("tx_hash", .str "tx1"),
   ("validation_status", .str "other")]

/-- The event `exC8` decodes to. -/
def exC8ev : ContractEvent :=
  ⟨1, "CCAAA", "n", "transfer", [], "abc123", 100000, 0,
   "2026-01-01T00:00:00Z", "tx1", none, "other"⟩

/-- C8 counterexample: the decode input `exC8` carries
`validation_status = "other"`, a string that is neither "passed" nor
"failed", yet `ContractEvent.model_validate` accepts it — the model
declares `validation_status` as a plain `str`, not an enum, so the claim
that any other string is rejected is false. -/
theorem c8_counterexample :
    ContractEvent.model_validate exC8 = some exC8ev ∧
    exC8ev.validation_status = "other" ∧
    ("other" : String) ≠ "passed" ∧ ("other" : String) ≠ "failed" :=
  ⟨rfl, rfl, by decide, by decide⟩

/-- C8 (amended): `validation_status` is decoded as an unconstrained
string: an absent field defaults to "passed", and a present string field
is taken verbatim — values outside {"passed", "failed"} are accepted, not
rejected. -/
theorem c8_validation_status (d : Dict) :
    ∀ ev, ContractEvent.model_validate d = some ev →
      (dictGet? d "validation_status" = none → ev.validation_status = "passed") ∧
      (∀ s, dictGet? d "validation_status" = some (.str s) →
        ev.validation_status = s) := by
  intro ev hev
  simp only [ContractEvent.model_validate, Option.bind_eq_some, bind,
    Option.some.injEq] at hev
  obtain ⟨i, hi, cid, hcid, cn, hcn, et, het, pl, hpl, ph, hph, lg, hlg, ei, hei,
    ts, hts, tx, htx, sv, hsv, vs, hvs, heq⟩ := hev
  subst heq
  constructor
  · intro h; rw [h] at hvs
    simpa [decodeStrD] using hvs.symm
  · intro s h; rw [h] at hvs
    simpa [decodeStrD] using hvs.symm

/-- Witness for C8 at the concrete input `exC8`. -/
theorem c8_validation_status_witness :
    ContractEvent.model_validate exC8 = some exC8ev ∧
    exC8ev.validation_status = "other" :=
  ⟨rfl, (c8_validation_status exC8 exC8ev rfl).2 "other" rfl⟩

/-- C9: the blocking and suspending client variants have identical
per-operation semantics: for every (status code, body) input the two
facades' response-decoding functions agree exactly (same success value,
or same raised error kind, message, status_code and response_data), and
their header-building functions are extensionally equal. -/
theorem c9_sync_async_equal :
    (∀ r : HttpResponse,
      AsyncSoroScanClient.handle_response r = SoroScanClient.handle_response r) ∧
    (∀ api_key : Option String,
      AsyncSoroScanClient.get_headers api_key = SoroScanClient.get_headers api_key) :=
  ⟨fun _ => rfl, fun _ => rfl⟩

/-- C10: for every constructed taxonomy error (of any kind), the
`response_data` attribute is a dict (by construction of the model it is
a `Dict`, never an optional): constructing with `response_data` absent
(`None`) stores the empty dict, and in general the stored value is the
given dict, defaulting to empty. -/
theorem c10_response_data_never_none (kind : ErrorKind) (message : JsonVal)
    (status_code : Nat) (response_data : Option Dict) :
    (SoroScanAPIError.init kind message status_code none).response_data = [] ∧
    (SoroScanAPIError.init kind message status_code response_data).response_data =
      response_data.getD [] := by
  refine ⟨rfl, ?_⟩
  rcases response_data with _ | d
  · rfl
  · simp only [SoroScanAPIError.init, Option.getD_some]
    split
    · simp_all [List.isEmpty_iff]
    · rfl

end SoroScan
